import Mathlib

/-!
Shallow embedding of the file-upload widget in
src/node_modules/neo.mjs/src/form/field/FileUpload.mjs.

The widget is a small state machine driven by DOM and XHR events.  Each
JavaScript event handler is embedded as a pure Lean function from the
widget record (the fields the handlers read and write) and the event
payload to the updated record, together with flags for the observable
effects (whether a transfer was started, whether a poll request was
issued, whether a poll was rescheduled, whether an exception escaped
the handler).  JavaScript strings stay `String`, byte counts become
`Nat`, nullable configs become `Option`, and the parsed JSON response
bodies become association lists of scalar JSON values (the documented
wire protocol only uses scalar fields).  A JSON.parse failure, which
the source does not catch, is modelled by the `threw` flag of the
upload-completion handler.
-/

namespace FileUpload

/-- Scalar JSON values as they appear in the documented response bodies
(`success`, `message`, `documentId`, `status`).  Composite values do not
occur in the protocol; JavaScript truthiness on them would be `true`. -/
inductive JsonValue where
  | null
  | bool (b : Bool)
  | num (n : Int)
  | str (s : String)
deriving Repr, DecidableEq

/-- JavaScript truthiness of a scalar value. -/
def JsonValue.truthy : JsonValue → Bool
  | .null   => false
  | .bool b => b
  | .num n  => n != 0
  | .str s  => s != ""

/-- A parsed JSON object body: an association list of scalar fields. -/
abbrev JsonObject := List (String × JsonValue)

/-- Property lookup `obj[key]`; `none` plays the role of `undefined`. -/
def jsonGet (obj : JsonObject) (key : String) : Option JsonValue :=
  obj.lookup key

/-- JavaScript truthiness of a property access result, where an absent
property (`undefined`) is falsy. -/
def truthyOpt : Option JsonValue → Bool
  | none   => false
  | some v => v.truthy

/-- JavaScript truthiness of a nullable string config such as
`documentStatusUrl` (null, undefined and the empty string are falsy). -/
def strTruthy : Option String → Bool
  | none   => false
  | some s => s != ""

/-- Text the error setter displays for a value assigned to `me.error`:
a falsy value clears the error, a truthy scalar renders as its display
string (`set error` in the source checks `if (text)`). -/
def errorText : Option JsonValue → String
  | some (.str s)  => s
  | some (.bool b) => if b then "true" else ""
  | some (.num n)  => if n = 0 then "" else toString n
  | _              => ""

/-- A selected file as the handlers see it: `name` and `size` members. -/
structure JsFile where
  name : String
  size : Nat
deriving Repr, DecidableEq

/-- The widget fields the embedded handlers read or write.  `state` is a
`String` exactly as in the source (the poll handler assigns the wire
status verbatim to it).  `inputValue` is the `value` attribute of the
file-input vdom node (`none` initially, `some ""` once `clear` ran).
`xhr` records whether a transfer handle is currently held. -/
structure Widget where
  state               : String
  error               : String
  documentId          : Option JsonValue
  documentIdParameter : String
  documentStatusUrl   : Option String
  documentDeleteUrl   : Option String
  downloadUrl         : Option String
  types               : Option (List String)
  maxSize             : Option String
  fileSize            : String
  uploadSize          : Option Nat
  inputValue          : Option String
  xhr                 : Bool
deriving Repr, DecidableEq

/-- The widget as constructed: config defaults from `static config`
(state `ready`, `documentIdParameter` defaulting to `documentId`, all
URLs and limits null, no document id, no transfer handle). -/
def initWidget : Widget :=
  { state               := "ready"
    error               := ""
    documentId          := none
    documentIdParameter := "documentId"
    documentStatusUrl   := none
    documentDeleteUrl   := none
    downloadUrl         := none
    types               := none
    maxSize             := none
    fileSize            := ""
    uploadSize          := none
    inputValue          := none
    xhr                 := false }

/-- Embeds `clear()`: resets the file-input vdom node with `value : ''`,
sets state to `ready` and clears the error text.  (The trailing focus
call is presentation only.)  Note the source does not reset
`documentId` here. -/
def clear (w : Widget) : Widget :=
  { w with inputValue := some "", state := "ready", error := "" }

/-- Embeds `onUploadAbort(e)`: drops the transfer handle and runs
`clear()`. -/
def onUploadAbort (w : Widget) : Widget :=
  clear { w with xhr := false }

/-- Embeds `onUploadError(e)`: drops the transfer handle, moves to
`upload-failed` and uses the event type string as the error text. -/
def onUploadError (w : Widget) (eventType : String) : Widget :=
  { w with xhr := false, state := "upload-failed", error := eventType }

/-- Embeds `onUploadProgress({loaded, total})`: records the loaded byte
count (`this.uploadSize = loaded`); the fraction and the vdom updates
are presentation only and the state is untouched. -/
def onUploadProgress (w : Widget) (loaded : Nat) : Widget :=
  { w with uploadSize := some loaded }

/-- Numeric value of a digit string, as `parseInt` computes it on the
first capture group of `sizeRE`. -/
def digitsToNat (ds : List Char) : Nat :=
  ds.foldl (fun n c => n * 10 + (c.toNat - 48)) 0

/-- Embeds `sizeRE.exec`: the regular expression
`(\d+)(kb|mb|gb)?` anchored at both ends with the ignore-case flag.
A match yields the digit group and the lowercased optional unit group;
a non-matching string yields `none` (exec returned null). -/
def sizeREexec (s : String) : Option (Nat × Option String) :=
  let ds   := s.data.takeWhile Char.isDigit
  let rest := (s.data.dropWhile Char.isDigit).map Char.toLower
  if ds.isEmpty then none
  else if rest.isEmpty then some (digitsToNat ds, none)
  else if rest = "kb".data ∨ rest = "mb".data ∨ rest = "gb".data then
    some (digitsToNat ds, some (String.mk rest))
  else none

/-- Embeds the `sizeMultiplier` table (`unit` is the key used when the
unit group is absent). -/
def sizeMultiplier : String → Nat
  | "kb" => 1000
  | "mb" => 1000000
  | "gb" => 1000000000
  | _    => 1

/-- Embeds `beforeGetMaxSize(maxSize)`: a null config means
`Number.MAX_SAFE_INTEGER`; otherwise the string is run through
`sizeRE` and a match yields digits times multiplier, while a
non-matching string falls through the function and yields `undefined`
(`none`). -/
def beforeGetMaxSize (maxSize : Option String) : Option Nat :=
  match maxSize with
  | none => some 9007199254740991
  | some s =>
    match sizeREexec s with
    | some (n, u) => some (n * sizeMultiplier ((u.getD "unit")))
    | none => none

/-- JavaScript `a > b` where `b` may be `undefined`: any comparison with
`undefined` is `false`. -/
def jsGreater (a : Nat) (b : Option Nat) : Bool :=
  match b with
  | none   => false
  | some m => a > m

/-- Embeds `file.name.lastIndexOf('.')` followed by
`file.name.slice(pointPos + 1)`: the substring after the last dot, or
the empty string when the name has no dot. -/
def extAfterLastDot (name : String) : String :=
  if name.data.contains '.' then
    String.mk ((name.data.reverse.takeWhile (fun c => c ≠ '.')).reverse)
  else ""

/-- The unit index chosen by `formatSize`:
`Math.min(floor(Math.log(bytes) / Math.log(1024)), sizes.length - 1)`.
For a positive integer byte count the real-log floor is the base-1024
integer logarithm. -/
def formatSizeIndex (bytes : Nat) : Nat :=
  min (Nat.log 1024 bytes) 4

/-- The integer `toFixed` builds its output from, scaled by `10 ^ f`
for `f` requested decimals: the nearest such integer to the exact
value, ties resolved upward, i.e. `floor(x * 10 ^ f + 1/2)`.  For
`formatSize` the exact value is `bytes / 1024 ^ i` and `f` is one
except at unit index zero where it is zero. -/
def formatSizeScaled (bytes : Nat) : Nat :=
  let i := formatSizeIndex bytes
  if i = 0 then bytes
  else (20 * bytes + 1024 ^ i) / (2 * 1024 ^ i)

/-- Decimal rendering of the `toFixed` result of `formatSize`. -/
def formatSizeNumString (bytes : Nat) : String :=
  let i := formatSizeIndex bytes
  let n := formatSizeScaled bytes
  if i = 0 then toString n
  else toString (n / 10) ++ "." ++ toString (n % 10)

/-- Embeds `formatSize(bytes)` with the defaulted empty separator and
suffix arguments (every call site uses the defaults): a falsy byte
count (absent or zero) renders as `n/a`; otherwise the byte count is
scaled by the unit table `[Bytes, KB, MB, GB, TB]` at the clamped
log-1024 index and printed with one decimal place except for plain
bytes. -/
def formatSize (bytes : Option Nat) : String :=
  match bytes with
  | some b =>
    if b ≠ 0 then
      let sizes := ["Bytes", "KB", "MB", "GB", "TB"]
      formatSizeNumString b ++ sizes.getD (formatSizeIndex b) ""
    else "n/a"
  | none => "n/a"

/-- Result of the file-selection handler: the updated widget and, when
validation passed, the file handed to `upload`. -/
structure SelectResult where
  widget        : Widget
  uploadStarted : Option JsFile
deriving Repr, DecidableEq

/-- Embeds `onInputValueChange({files})`.  A selected file has the
substring after its last dot checked against the configured type map
(a plain property lookup on the keys), then its size checked against
the parsed `maxSize`; a failure of either check assigns an error text
and returns without uploading, otherwise the formatted size is stored,
the error is cleared and the upload begins.  An empty file list resets
the state to `ready`. -/
def onInputValueChange (w : Widget) (files : List JsFile) : SelectResult :=
  match files with
  | [] => { widget := { w with state := "ready" }, uploadStarted := none }
  | file :: _ =>
    let type := extAfterLastDot file.name
    match w.types with
    | some ts =>
      if ¬ ts.contains type then
        { widget := { w with error :=
            "Please use these file types: ." ++ String.intercalate " ." ts }
          uploadStarted := none }
      else if jsGreater file.size (beforeGetMaxSize w.maxSize) then
        { widget := { w with error :=
            "File size exceeds " ++ (w.maxSize.getD "null").toUpper }
          uploadStarted := none }
      else
        { widget := { w with fileSize := formatSize (some file.size), error := "" }
          uploadStarted := some file }
    | none =>
      if jsGreater file.size (beforeGetMaxSize w.maxSize) then
        { widget := { w with error :=
            "File size exceeds " ++ (w.maxSize.getD "null").toUpper }
          uploadStarted := none }
      else
        { widget := { w with fileSize := formatSize (some file.size), error := "" }
          uploadStarted := some file }

/-- Embeds the synchronous prefix of `upload(file)` up to its first
await: a fresh transfer handle is stored and the state moves to
`starting`. -/
def uploadStart (w : Widget) : Widget :=
  { w with xhr := true, state := "starting" }

/-- Embeds the continuation of `upload(file)` after the awaited timer:
the state moves to `uploading` (the filename display is presentation
only) and the transfer is sent. -/
def uploadResume (w : Widget) : Widget :=
  { w with state := "uploading" }

/-- Result of the upload-completion handler: the updated widget,
whether the status polling was started (`me.checkDocumentStatus()`
called), and whether an exception escaped the handler (the
`JSON.parse` call is not guarded, so a malformed body throws past the
already-performed `me.xhr = null` assignment). -/
structure UploadDoneResult where
  widget      : Widget
  pollStarted : Bool
  threw       : Bool
deriving Repr, DecidableEq

/-- Embeds `onUploadDone({loaded, target})`.  The `parsed` argument is
the outcome of `JSON.parse(xhr.response)`: `some` the parsed object,
or `none` when the body is malformed and the parse throws. -/
def onUploadDone (w : Widget) (loaded : Nat) (parsed : Option JsonObject) :
    UploadDoneResult :=
  let w := { w with xhr := false }
  if loaded ≠ 0 then
    match parsed with
    | none => { widget := w, pollStarted := false, threw := true }
    | some response =>
      if truthyOpt (jsonGet response "success") then
        let w := { w with documentId := jsonGet response w.documentIdParameter }
        if strTruthy w.documentStatusUrl then
          { widget := { w with state := "processing" }, pollStarted := true
            threw := false }
        else
          { widget := { w with state := "downloadable" }, pollStarted := false
            threw := false }
      else
        { widget := { w with error := errorText (jsonGet response "message")
                             state := "upload-failed" }
          pollStarted := false, threw := false }
  else { widget := w, pollStarted := false, threw := false }

/-- HTTP success as the source tests it:
`String(statusResponse.status).slice(0, 1) === '2'`. -/
def firstDigitIs2 (status : Nat) : Bool :=
  (toString status).take 1 = "2"

/-- Result of one firing of `checkDocumentStatus`: the updated widget,
whether a status request was issued at all (the handler re-reads the
current state and returns without fetching unless it is `processing`),
and the delay of the rescheduled poll when the document is still
scanning. -/
structure PollResult where
  widget    : Widget
  requested : Bool
  reschedMs : Option Nat
deriving Repr, DecidableEq

/-- Embeds `checkDocumentStatus()`.  The server interaction is passed
in as the HTTP status, its status text and the `status` field of the
JSON body; these are consumed only when the request is actually
issued. -/
def checkDocumentStatus (w : Widget) (httpStatus : Nat)
    (statusText status : String) : PollResult :=
  if w.state = "processing" then
    if firstDigitIs2 httpStatus then
      if status = "scanning" then
        { widget := w, requested := true, reschedMs := some 2000 }
      else
        { widget := { w with state := status }, requested := true
          reschedMs := none }
    else
      { widget := { w with error :=
          "Document status service error: " ++ statusText }
        requested := true, reschedMs := none }
  else
    { widget := w, requested := false, reschedMs := none }

/-- Embeds `deleteDocument()` once the delete fetch resolved with the
given HTTP status: a 2xx answer clears the widget and returns to
`ready`, anything else surfaces the status text as the error. -/
def deleteDocument (w : Widget) (httpStatus : Nat) (statusText : String) :
    Widget :=
  if firstDigitIs2 httpStatus then
    { clear w with state := "ready" }
  else
    { w with error := "Document delete service error: " ++ statusText }

/-- The events that drive the widget: each constructor is one handler
invocation (or handler resumption) with its payload. -/
inductive Event where
  | select (files : List JsFile)
  | uploadResumeEv
  | progress (loaded : Nat)
  | uploadAbort
  | uploadError (eventType : String)
  | uploadDone (loaded : Nat) (parsed : Option JsonObject)
  | pollFire (httpStatus : Nat) (statusText status : String)
  | deleteResponse (httpStatus : Nat) (statusText : String)
  | clearEv
deriving Repr, DecidableEq

/-- One step of the widget state machine.  A selection that passes
validation immediately runs the synchronous prefix of `upload`, as in
the source, where `onInputValueChange` calls `me.upload(file)`. -/
def step (w : Widget) : Event → Widget
  | .select files =>
    let r := onInputValueChange w files
    if r.uploadStarted.isSome then uploadStart r.widget else r.widget
  | .uploadResumeEv => uploadResume w
  | .progress loaded => onUploadProgress w loaded
  | .uploadAbort => onUploadAbort w
  | .uploadError t => onUploadError w t
  | .uploadDone loaded parsed => (onUploadDone w loaded parsed).widget
  | .pollFire h st s => (checkDocumentStatus w h st s).widget
  | .deleteResponse h st => deleteDocument w h st
  | .clearEv => clear w

/-- Runs a sequence of events from a widget. -/
def run (w : Widget) (events : List Event) : Widget :=
  events.foldl step w

/-- Whether an event is an upload completion carrying a well-formed
body with a truthy `success` and a nonzero loaded byte count: exactly
the events whose handler stores a document identifier. -/
def isSuccessUploadDone : Event → Bool
  | .uploadDone loaded (some resp) =>
    loaded != 0 && truthyOpt (jsonGet resp "success")
  | _ => false

/-- Whether an event is the firing of a scheduled status poll. -/
def isPollFire : Event → Bool
  | .pollFire _ _ _ => true
  | _ => false

/-- Every casing of the optional unit group together with its
multiplier: the empty unit and all case variants of kb, mb, gb. -/
def unitCaseTable : List (String × Nat) :=
  [("", 1),
   ("kb", 1000), ("kB", 1000), ("Kb", 1000), ("KB", 1000),
   ("mb", 1000000), ("mB", 1000000), ("Mb", 1000000), ("MB", 1000000),
   ("gb", 1000000000), ("gB", 1000000000), ("Gb", 1000000000), ("GB", 1000000000)]

theorem data_ne_nil_of_ne_empty (s : String) (h : s ≠ "") : s.data ≠ [] := by
  intro hd
  apply h
  cases s with
  | mk l => simp_all

theorem takeWhile_append_all (p : Char → Bool) (l r : List Char)
    (h : ∀ c ∈ l, p c = true) : (l ++ r).takeWhile p = l ++ r.takeWhile p := by
  induction l with
  | nil => simp
  | cons a t ih =>
    simp only [List.cons_append, List.takeWhile_cons,
      h a (List.mem_cons_self a t), if_true]
    rw [ih (fun c hc => h c (List.mem_cons_of_mem a hc))]

theorem dropWhile_append_all (p : Char → Bool) (l r : List Char)
    (h : ∀ c ∈ l, p c = true) : (l ++ r).dropWhile p = r.dropWhile p := by
  induction l with
  | nil => simp
  | cons a t ih =>
    simp only [List.cons_append, List.dropWhile_cons,
      h a (List.mem_cons_self a t), if_true]
    exact ih (fun c hc => h c (List.mem_cons_of_mem a hc))

/-- C8: the effective maximum-size value parses the configured string
as digits plus an optional unit with multipliers 1000, 1000000 and
1000000000 for kb, mb and gb in any letter case; "100mb" yields
100000000, "5kb" yields 5000, "10" yields 10, and an absent limit
yields the maximum safe integer 9007199254740991. -/
theorem C8_maxSize_parsing :
    (∀ ds u mult, ds ≠ "" → (∀ c ∈ ds.data, c.isDigit = true) →
      (u, mult) ∈ unitCaseTable →
      beforeGetMaxSize (some (ds ++ u)) = some (digitsToNat ds.data * mult)) ∧
    beforeGetMaxSize (some "100mb") = some 100000000 ∧
    beforeGetMaxSize (some "5kb") = some 5000 ∧
    beforeGetMaxSize (some "10") = some 10 ∧
    beforeGetMaxSize none = some 9007199254740991 := by
  refine ⟨?_, rfl, rfl, rfl, rfl⟩
  intro ds u mult hne hdig hmem
  have hd : ds.data ≠ [] := data_ne_nil_of_ne_empty ds hne
  fin_cases hmem <;>
  · simp only [beforeGetMaxSize, sizeREexec, String.data_append]
    rw [takeWhile_append_all _ _ _ hdig, dropWhile_append_all _ _ _ hdig]
    simp [hd, sizeMultiplier, List.isEmpty_iff]

/-- Witness for C8 at a concrete input: a digit string with an
upper-case unit. -/
theorem C8_maxSize_parsing_witness :
    ("100" : String) ≠ "" ∧ (∀ c ∈ ("100" : String).data, c.isDigit = true) ∧
    (("MB", 1000000) ∈ unitCaseTable) ∧
    beforeGetMaxSize (some ("100" ++ "MB")) = some (digitsToNat "100".data * 1000000) :=
  ⟨by decide, by decide, by decide,
    C8_maxSize_parsing.1 "100" "MB" 1000000 (by decide) (by decide) (by decide)⟩

/-- C10: a configured maximum-size string that does not match the
digits-plus-optional-unit pattern makes the computed maxSize undefined,
and the undefined comparison never rejects a file: every selected file
of an allowed type passes the size check and is uploaded. -/
theorem C10_malformed_limit :
    (sizeREexec "12 mb" = none ∧ sizeREexec "abc" = none ∧
      sizeREexec "1.5mb" = none) ∧
    (∀ s, sizeREexec s = none → beforeGetMaxSize (some s) = none) ∧
    (∀ size, jsGreater size none = false) ∧
    (∀ w s file rest, w.maxSize = some s → sizeREexec s = none →
      (∀ ts, w.types = some ts → ts.contains (extAfterLastDot file.name) = true) →
      (onInputValueChange w (file :: rest)).uploadStarted = some file ∧
      (onInputValueChange w (file :: rest)).widget.error = "") := by
  have hbg : ∀ s, sizeREexec s = none → beforeGetMaxSize (some s) = none := by
    intro s hs
    simp [beforeGetMaxSize, hs]
  refine ⟨⟨rfl, rfl, rfl⟩, hbg, fun _ => rfl, ?_⟩
  intro w s file rest hms hre hty
  have hj : jsGreater file.size (beforeGetMaxSize w.maxSize) = false := by
    rw [hms, hbg s hre]
    rfl
  cases hw : w.types with
  | some ts =>
    have hc : extAfterLastDot file.name ∈ ts := by simpa using hty ts hw
    simp [onInputValueChange, hw, hc, hj]
  | none =>
    simp [onInputValueChange, hw, hj]

theorem append_ne_empty (s t : String) (hs : s ≠ "") : s ++ t ≠ "" := by
  intro he
  apply data_ne_nil_of_ne_empty s hs
  have hd := congrArg String.data he
  rw [String.data_append] at hd
  exact (List.append_eq_nil.mp hd).1

/-- C3 counterexample: with the allow-list key pdf configured, the
file report.PDF is rejected with a type error and never uploaded, so
the extension check is not case-insensitive. -/
theorem C3_counterexample :
    (onInputValueChange { initWidget with types := some ["pdf"] }
        [⟨"report.PDF", 100⟩]).uploadStarted = none ∧
    (onInputValueChange { initWidget with types := some ["pdf"] }
        [⟨"report.PDF", 100⟩]).widget.error ≠ "" := by
  decide

/-- C3 amended: the extension check is case-sensitive: the substring
after the last dot of the file name is looked up verbatim among the
configured type keys, so a mismatching case is rejected with the
type-error text and no upload, while a verbatim member that also
passes the size check is uploaded. -/
theorem C3_case_sensitive_extension :
    (∀ w ts file rest, w.types = some ts →
      ts.contains (extAfterLastDot file.name) = false →
      (onInputValueChange w (file :: rest)).uploadStarted = none ∧
      (onInputValueChange w (file :: rest)).widget.error =
        "Please use these file types: ." ++ String.intercalate " ." ts) ∧
    (∀ w ts file rest, w.types = some ts →
      ts.contains (extAfterLastDot file.name) = true →
      jsGreater file.size (beforeGetMaxSize w.maxSize) = false →
      (onInputValueChange w (file :: rest)).uploadStarted = some file) := by
  constructor
  · intro w ts file rest hw hc
    have hc' : extAfterLastDot file.name ∉ ts := by simpa using hc
    simp [onInputValueChange, hw, hc']
  · intro w ts file rest hw hc hj
    have hc' : extAfterLastDot file.name ∈ ts := by simpa using hc
    simp [onInputValueChange, hw, hc', hj]

/-- Witness for the amended C3 at the counterexample input. -/
theorem C3_case_sensitive_witness :
    ({ initWidget with types := some ["pdf"] } : Widget).types = some ["pdf"] ∧
    ["pdf"].contains (extAfterLastDot "report.PDF") = false ∧
    ((onInputValueChange { initWidget with types := some ["pdf"] }
        [⟨"report.PDF", 100⟩]).uploadStarted = none ∧
      (onInputValueChange { initWidget with types := some ["pdf"] }
        [⟨"report.PDF", 100⟩]).widget.error =
        "Please use these file types: ." ++ String.intercalate " ." ["pdf"]) :=
  ⟨rfl, by decide,
    C3_case_sensitive_extension.1 { initWidget with types := some ["pdf"] }
      ["pdf"] ⟨"report.PDF", 100⟩ [] rfl (by decide)⟩

/-- C6: a selected file failing the type check or the size check sets
a nonempty error text, leaves the state unchanged and starts no
transfer. -/
theorem C6_validation_failure (w : Widget) (file : JsFile) (rest : List JsFile)
    (h : (∃ ts, w.types = some ts ∧
          ts.contains (extAfterLastDot file.name) = false) ∨
      jsGreater file.size (beforeGetMaxSize w.maxSize) = true) :
    (onInputValueChange w (file :: rest)).widget.error ≠ "" ∧
    (onInputValueChange w (file :: rest)).widget.state = w.state ∧
    (onInputValueChange w (file :: rest)).uploadStarted = none := by
  cases hw : w.types with
  | some ts =>
    by_cases hc : ts.contains (extAfterLastDot file.name) = true
    · have hj : jsGreater file.size (beforeGetMaxSize w.maxSize) = true := by
        rcases h with ⟨ts', hts', hcf⟩ | hj
        · rw [hw] at hts'
          cases hts'
          rw [hc] at hcf
          exact absurd hcf (by simp)
        · exact hj
      have hc' : extAfterLastDot file.name ∈ ts := by simpa using hc
      refine ⟨?_, ?_, ?_⟩ <;>
        simp [onInputValueChange, hw, hc', hj,
          append_ne_empty "File size exceeds " _ (by decide)]
    · have hc' : extAfterLastDot file.name ∉ ts := by simpa using hc
      refine ⟨?_, ?_, ?_⟩ <;>
        simp [onInputValueChange, hw, hc',
          append_ne_empty "Please use these file types: ." _ (by decide)]
  | none =>
    rcases h with ⟨ts, hts, _⟩ | hj
    · rw [hw] at hts
      exact absurd hts (by simp)
    · refine ⟨?_, ?_, ?_⟩ <;>
        simp [onInputValueChange, hw, hj,
          append_ne_empty "File size exceeds " _ (by decide)]

/-- Witness for C6 at a concrete oversized file under a 10-byte
limit. -/
theorem C6_validation_failure_witness :
    ((∃ ts, ({ initWidget with maxSize := some "10" } : Widget).types = some ts ∧
        ts.contains (extAfterLastDot "a.txt") = false) ∨
      jsGreater 11 (beforeGetMaxSize
        ({ initWidget with maxSize := some "10" } : Widget).maxSize) = true) ∧
    ((onInputValueChange { initWidget with maxSize := some "10" }
        [⟨"a.txt", 11⟩]).widget.error ≠ "" ∧
      (onInputValueChange { initWidget with maxSize := some "10" }
        [⟨"a.txt", 11⟩]).widget.state =
        ({ initWidget with maxSize := some "10" } : Widget).state ∧
      (onInputValueChange { initWidget with maxSize := some "10" }
        [⟨"a.txt", 11⟩]).uploadStarted = none) :=
  ⟨Or.inr (by decide),
    C6_validation_failure { initWidget with maxSize := some "10" }
      ⟨"a.txt", 11⟩ [] (Or.inr (by decide))⟩

/-- C7: an abort while uploading performs the full reset (state ready,
empty error, cleared file input, transfer handle discarded), while a
transfer error instead yields upload-failed with the event type string
as the message. -/
theorem C7_abort_full_reset :
    (∀ w : Widget, w.state = "uploading" →
      (onUploadAbort w).state = "ready" ∧ (onUploadAbort w).error = "" ∧
      (onUploadAbort w).inputValue = some "" ∧
      (onUploadAbort w).xhr = false) ∧
    (∀ (w : Widget) (t : String), w.state = "uploading" →
      (onUploadError w t).state = "upload-failed" ∧
      (onUploadError w t).error = t) :=
  ⟨fun _ _ => ⟨rfl, rfl, rfl, rfl⟩, fun _ _ _ => ⟨rfl, rfl⟩⟩

/-- Witness for C7 at a concrete uploading widget. -/
theorem C7_abort_full_reset_witness :
    ({ initWidget with state := "uploading", xhr := true } : Widget).state =
      "uploading" ∧
    ((onUploadAbort { initWidget with state := "uploading", xhr := true }).state =
        "ready" ∧
      (onUploadAbort { initWidget with state := "uploading", xhr := true }).error =
        "" ∧
      (onUploadAbort
          { initWidget with state := "uploading", xhr := true }).inputValue =
        some "" ∧
      (onUploadAbort { initWidget with state := "uploading", xhr := true }).xhr =
        false) ∧
    ((onUploadError { initWidget with state := "uploading", xhr := true }
        "error").state = "upload-failed" ∧
      (onUploadError { initWidget with state := "uploading", xhr := true }
        "error").error = "error") :=
  ⟨rfl, C7_abort_full_reset.1 _ rfl, C7_abort_full_reset.2 _ "error" rfl⟩

set_option maxRecDepth 4000 in
theorem firstDigitIs2_iff_2xx :
    ∀ n, n < 600 → (100 ≤ n → (firstDigitIs2 n = true ↔ (200 ≤ n ∧ n ≤ 299))) := by
  decide

/-- C5: while the state is processing, a non-2xx poll response sets
the status-service error text and leaves the state unchanged; a 2xx
response with status scanning reschedules a poll after exactly 2000 ms
and keeps the state processing; a 2xx response with any other status
sets the state to that value verbatim.  The final conjunct identifies
the first-digit test of the source with the 2xx status class on the
HTTP status range. -/
theorem C5_poll_semantics (w : Widget) (h : Nat) (st s : String)
    (hproc : w.state = "processing") :
    (firstDigitIs2 h = false →
      (checkDocumentStatus w h st s).widget.error =
        "Document status service error: " ++ st ∧
      (checkDocumentStatus w h st s).widget.error ≠ "" ∧
      (checkDocumentStatus w h st s).widget.state = w.state ∧
      (checkDocumentStatus w h st s).reschedMs = none) ∧
    (firstDigitIs2 h = true → s = "scanning" →
      (checkDocumentStatus w h st s).widget = w ∧
      (checkDocumentStatus w h st s).widget.state = "processing" ∧
      (checkDocumentStatus w h st s).reschedMs = some 2000) ∧
    (firstDigitIs2 h = true → s ≠ "scanning" →
      (checkDocumentStatus w h st s).widget.state = s ∧
      (checkDocumentStatus w h st s).reschedMs = none) ∧
    (∀ n, n < 600 → 100 ≤ n → (firstDigitIs2 n = true ↔ (200 ≤ n ∧ n ≤ 299))) := by
  refine ⟨?_, ?_, ?_, firstDigitIs2_iff_2xx⟩
  · intro h2
    refine ⟨?_, ?_, ?_, ?_⟩ <;>
      simp [checkDocumentStatus, hproc, h2,
        append_ne_empty "Document status service error: " st (by decide)]
  · intro h2 hs
    subst hs
    exact ⟨by simp [checkDocumentStatus, hproc, h2], by simp [checkDocumentStatus, hproc, h2],
      by simp [checkDocumentStatus, hproc, h2]⟩
  · intro h2 hs
    exact ⟨by simp [checkDocumentStatus, hproc, h2, hs], by simp [checkDocumentStatus, hproc, h2, hs]⟩

/-- Witness for C5 at a concrete processing widget and a 2xx
downloadable response. -/
theorem C5_poll_semantics_witness :
    ({ initWidget with state := "processing" } : Widget).state = "processing" ∧
    (firstDigitIs2 200 = true →
      ("downloadable" : String) ≠ "scanning" →
      (checkDocumentStatus { initWidget with state := "processing" }
          200 "OK" "downloadable").widget.state = "downloadable" ∧
      (checkDocumentStatus { initWidget with state := "processing" }
          200 "OK" "downloadable").reschedMs = none) :=
  ⟨rfl, (C5_poll_semantics { initWidget with state := "processing" }
    200 "OK" "downloadable" rfl).2.2.1⟩

theorem checkDocumentStatus_not_processing (w : Widget)
    (hw : w.state ≠ "processing") (h : Nat) (st s : String) :
    checkDocumentStatus w h st s =
      { widget := w, requested := false, reschedMs := none } := by
  simp [checkDocumentStatus, hw]

theorem run_pollFires_fixed (w : Widget) (hw : w.state ≠ "processing") :
    ∀ tr : List Event, (∀ e ∈ tr, isPollFire e = true) → run w tr = w := by
  intro tr
  induction tr with
  | nil => intro _; rfl
  | cons e t ih =>
    intro h
    have he := h e (List.mem_cons_self e t)
    have ht : ∀ e' ∈ t, isPollFire e' = true :=
      fun e' he' => h e' (List.mem_cons_of_mem e he')
    cases e with
    | pollFire hp stp sp =>
      have hstep : step w (Event.pollFire hp stp sp) = w := by
        simp [step, checkDocumentStatus_not_processing w hw]
      show run (step w (Event.pollFire hp stp sp)) t = w
      rw [hstep]
      exact ih ht
    | select files => simp [isPollFire] at he
    | uploadResumeEv => simp [isPollFire] at he
    | progress loaded => simp [isPollFire] at he
    | uploadAbort => simp [isPollFire] at he
    | uploadError t' => simp [isPollFire] at he
    | uploadDone l p => simp [isPollFire] at he
    | deleteResponse hp stp => simp [isPollFire] at he
    | clearEv => simp [isPollFire] at he

/-- C2: after a delete request resolved with a 2xx status the widget
is in the ready state, a poll fired in that state issues no request
and changes nothing, and any sequence of scheduled polls firing after
the delete leaves the widget unchanged in the ready state. -/
theorem C2_stale_poll_harmless (w : Widget) (h : Nat) (st : String)
    (h2 : firstDigitIs2 h = true) :
    (deleteDocument w h st).state = "ready" ∧
    (∀ hp stp sp,
      (checkDocumentStatus (deleteDocument w h st) hp stp sp).requested =
        false ∧
      (checkDocumentStatus (deleteDocument w h st) hp stp sp).widget =
        deleteDocument w h st) ∧
    (∀ tr, (∀ e ∈ tr, isPollFire e = true) →
      run (deleteDocument w h st) tr = deleteDocument w h st ∧
      (run (deleteDocument w h st) tr).state = "ready") := by
  have hdel : (deleteDocument w h st).state = "ready" := by
    simp [deleteDocument, h2, clear]
  have hne : (deleteDocument w h st).state ≠ "processing" := by
    rw [hdel]; simp
  refine ⟨hdel, ?_, ?_⟩
  · intro hp stp sp
    rw [checkDocumentStatus_not_processing _ hne]
    exact ⟨rfl, rfl⟩
  · intro tr htr
    have hr := run_pollFires_fixed _ hne tr htr
    exact ⟨hr, by rw [hr, hdel]⟩

/-- Witness for C2: a processing widget whose delete resolves with
HTTP 200 while one scheduled poll later fires with a downloadable
answer. -/
theorem C2_stale_poll_witness :
    firstDigitIs2 200 = true ∧
    (deleteDocument { initWidget with state := "processing" } 200 "OK").state =
      "ready" ∧
    (checkDocumentStatus
        (deleteDocument { initWidget with state := "processing" } 200 "OK")
        200 "OK" "downloadable").requested = false ∧
    run (deleteDocument { initWidget with state := "processing" } 200 "OK")
        [Event.pollFire 200 "OK" "downloadable"] =
      deleteDocument { initWidget with state := "processing" } 200 "OK" := by
  have hth := C2_stale_poll_harmless { initWidget with state := "processing" }
    200 "OK" (by decide)
  exact ⟨by decide, hth.1, (hth.2.1 200 "OK" "downloadable").1,
    (hth.2.2 [Event.pollFire 200 "OK" "downloadable"] (by decide)).1⟩

theorem onInputValueChange_documentId (w : Widget) (files : List JsFile) :
    (onInputValueChange w files).widget.documentId = w.documentId := by
  cases files with
  | nil => rfl
  | cons f rest =>
    cases htypes : w.types with
    | some ts =>
      simp only [onInputValueChange, htypes]
      split
      · rfl
      · split <;> rfl
    | none =>
      simp only [onInputValueChange, htypes]
      split <;> rfl

theorem step_documentId (w : Widget) (e : Event)
    (h : isSuccessUploadDone e = false) :
    (step w e).documentId = w.documentId := by
  cases e with
  | select files =>
    simp only [step]
    split <;> simp [uploadStart, onInputValueChange_documentId]
  | uploadResumeEv => rfl
  | progress loaded => rfl
  | uploadAbort => rfl
  | uploadError t => rfl
  | uploadDone loaded parsed =>
    by_cases hl : loaded = 0
    · subst hl
      cases parsed <;> simp [step, onUploadDone]
    · cases parsed with
      | none => simp [step, onUploadDone, hl]
      | some resp =>
        have hs : truthyOpt (jsonGet resp "success") = false := by
          simpa [isSuccessUploadDone, hl] using h
        simp [step, onUploadDone, hl, hs]
  | pollFire hp stp sp =>
    simp only [step, checkDocumentStatus]
    split
    · split
      · split <;> rfl
      · rfl
    · rfl
  | deleteResponse hp stp =>
    simp only [step, deleteDocument]
    split <;> rfl
  | clearEv => rfl

theorem run_documentId (w : Widget) (tr : List Event)
    (h : ∀ e ∈ tr, isSuccessUploadDone e = false) :
    (run w tr).documentId = w.documentId := by
  induction tr generalizing w with
  | nil => rfl
  | cons e t ih =>
    have he := h e (List.mem_cons_self e t)
    have ht : ∀ e' ∈ t, isSuccessUploadDone e' = false :=
      fun e' he' => h e' (List.mem_cons_of_mem e he')
    show (run (step w e) t).documentId = w.documentId
    rw [ih (step w e) ht, step_documentId w e he]

/-- C1: on upload completion with nonzero loaded bytes, a successful
response stores the identifier read from the configured parameter name
(defaulting to documentId) and moves to processing with polling
started when a status URL is configured, else directly to
downloadable; a failure response surfaces the server message and moves
to upload-failed; zero loaded bytes leave the state unchanged; and on
every event sequence from the initial widget a document identifier
exists only after a successful upload response. -/
theorem C1_uploadDone_spec :
    (∀ (w : Widget) (loaded : Nat) (resp : JsonObject), loaded ≠ 0 →
      truthyOpt (jsonGet resp "success") = true →
      (onUploadDone w loaded (some resp)).widget.documentId =
        jsonGet resp w.documentIdParameter ∧
      (strTruthy w.documentStatusUrl = true →
        (onUploadDone w loaded (some resp)).widget.state = "processing" ∧
        (onUploadDone w loaded (some resp)).pollStarted = true) ∧
      (strTruthy w.documentStatusUrl = false →
        (onUploadDone w loaded (some resp)).widget.state = "downloadable" ∧
        (onUploadDone w loaded (some resp)).pollStarted = false)) ∧
    (∀ (w : Widget) (loaded : Nat) (resp : JsonObject) (msg : String),
      loaded ≠ 0 →
      truthyOpt (jsonGet resp "success") = false →
      jsonGet resp "message" = some (JsonValue.str msg) →
      (onUploadDone w loaded (some resp)).widget.error = msg ∧
      (onUploadDone w loaded (some resp)).widget.state = "upload-failed") ∧
    (∀ (w : Widget) (parsed : Option JsonObject),
      (onUploadDone w 0 parsed).widget.state = w.state) ∧
    initWidget.documentIdParameter = "documentId" ∧
    (∀ tr : List Event, (∀ e ∈ tr, isSuccessUploadDone e = false) →
      (run initWidget tr).documentId = none) := by
  refine ⟨?_, ?_, ?_, rfl, ?_⟩
  · intro w loaded resp hl hs
    refine ⟨?_, ?_, ?_⟩
    · simp only [onUploadDone, if_pos hl, hs, if_true]
      split <;> rfl
    · intro hurl
      constructor <;> simp [onUploadDone, hl, hs, hurl]
    · intro hurl
      constructor <;> simp [onUploadDone, hl, hs, hurl]
  · intro w loaded resp msg hl hs hmsg
    constructor <;> simp [onUploadDone, hl, hs, hmsg, errorText]
  · intro w parsed
    simp [onUploadDone]
  · intro tr h
    rw [run_documentId initWidget tr h]
    rfl

/-- Witness for C1: a successful completion with five loaded bytes and
a configured status URL stores id 42 and moves to processing. -/
theorem C1_uploadDone_witness :
    (5 : Nat) ≠ 0 ∧
    truthyOpt (jsonGet [("success", JsonValue.bool true),
      ("documentId", JsonValue.num 42)] "success") = true ∧
    ((onUploadDone { initWidget with documentStatusUrl := some "u" } 5
        (some [("success", JsonValue.bool true),
          ("documentId", JsonValue.num 42)])).widget.documentId =
      jsonGet [("success", JsonValue.bool true),
        ("documentId", JsonValue.num 42)]
        ({ initWidget with documentStatusUrl := some "u" } :
          Widget).documentIdParameter ∧
      (strTruthy ({ initWidget with documentStatusUrl := some "u" } :
          Widget).documentStatusUrl = true →
        (onUploadDone { initWidget with documentStatusUrl := some "u" } 5
          (some [("success", JsonValue.bool true),
            ("documentId", JsonValue.num 42)])).widget.state = "processing" ∧
        (onUploadDone { initWidget with documentStatusUrl := some "u" } 5
          (some [("success", JsonValue.bool true),
            ("documentId", JsonValue.num 42)])).pollStarted = true) ∧
      (strTruthy ({ initWidget with documentStatusUrl := some "u" } :
          Widget).documentStatusUrl = false →
        (onUploadDone { initWidget with documentStatusUrl := some "u" } 5
          (some [("success", JsonValue.bool true),
            ("documentId", JsonValue.num 42)])).widget.state = "downloadable" ∧
        (onUploadDone { initWidget with documentStatusUrl := some "u" } 5
          (some [("success", JsonValue.bool true),
            ("documentId", JsonValue.num 42)])).pollStarted = false)) :=
  ⟨by decide, by decide,
    C1_uploadDone_spec.1 { initWidget with documentStatusUrl := some "u" } 5
      [("success", JsonValue.bool true), ("documentId", JsonValue.num 42)]
      (by decide) (by decide)⟩

/-- C4 counterexample: on a completed upload with one loaded byte and
a malformed response body, the completion handler lets the parse
exception escape. -/
theorem C4_counterexample :
    (onUploadDone initWidget 1 none).threw = true := rfl

/-- C4 amended: every error other than a parse failure is surfaced as
the widget error text, but a malformed upload-response body with
nonzero loaded bytes propagates the JSON parse exception out of the
upload-completion handler: the handler throws exactly in that case. -/
theorem C4_parse_exception_escapes :
    (∀ (w : Widget) (loaded : Nat) (parsed : Option JsonObject),
      (onUploadDone w loaded parsed).threw = true ↔
        (loaded ≠ 0 ∧ parsed = none)) ∧
    (∀ (w : Widget) (loaded : Nat) (resp : JsonObject), loaded ≠ 0 →
      truthyOpt (jsonGet resp "success") = false →
      (onUploadDone w loaded (some resp)).threw = false ∧
      (onUploadDone w loaded (some resp)).widget.error =
        errorText (jsonGet resp "message")) ∧
    (∀ (w : Widget) (t : String),
      (onUploadError w t).error = t ∧
      (onUploadError w t).state = "upload-failed") := by
  refine ⟨?_, ?_, fun _ _ => ⟨rfl, rfl⟩⟩
  · intro w loaded parsed
    by_cases hl : loaded = 0
    · subst hl
      cases parsed <;> simp [onUploadDone]
    · cases parsed with
      | none => simp [onUploadDone, hl]
      | some resp =>
        simp only [onUploadDone, if_pos hl]
        constructor
        · intro ht
          exfalso
          revert ht
          split
          · split <;> simp
          · simp
        · intro ⟨_, hn⟩
          exact absurd hn (by simp)
  · intro w loaded resp hl hs
    constructor <;> simp [onUploadDone, hl, hs]

/-- Witness for the amended C4: a rejected upload surfaces the server
message without throwing. -/
theorem C4_parse_exception_witness :
    (1 : Nat) ≠ 0 ∧
    truthyOpt (jsonGet [("success", JsonValue.bool false),
      ("message", JsonValue.str "rejected")] "success") = false ∧
    ((onUploadDone initWidget 1 (some [("success", JsonValue.bool false),
        ("message", JsonValue.str "rejected")])).threw = false ∧
      (onUploadDone initWidget 1 (some [("success", JsonValue.bool false),
        ("message", JsonValue.str "rejected")])).widget.error =
        errorText (jsonGet [("success", JsonValue.bool false),
          ("message", JsonValue.str "rejected")] "message")) :=
  ⟨by decide, by decide,
    C4_parse_exception_escapes.2.1 initWidget 1
      [("success", JsonValue.bool false), ("message", JsonValue.str "rejected")]
      (by decide) (by decide)⟩

/-- C9: for every positive byte count the format index is the clamped
base-1024 logarithm floor, bounded by 4 for the unit table Bytes, KB,
MB, GB, TB; the rendered numeric part (exact at index zero, one
decimal otherwise) reconstructs the byte count within half of the last
rendered decimal once scaled back by 1024 to the index; zero and
absent byte counts format as n/a. -/
theorem C9_formatSize_spec :
    (∀ B : Nat, 1 ≤ B →
      formatSizeIndex B = min (Nat.log 1024 B) 4 ∧
      formatSizeIndex B ≤ 4 ∧
      |(formatSizeScaled B : ℚ) /
          (if formatSizeIndex B = 0 then 1 else 10) *
          1024 ^ formatSizeIndex B - B| ≤
        (1024 ^ formatSizeIndex B : ℚ) / 20 ∧
      formatSize (some B) =
        formatSizeNumString B ++
          ["Bytes", "KB", "MB", "GB", "TB"].getD (formatSizeIndex B) "") ∧
    formatSize (some 0) = "n/a" ∧ formatSize none = "n/a" := by
  refine ⟨?_, rfl, rfl⟩
  intro B hB
  have hB0 : B ≠ 0 := by omega
  refine ⟨rfl, min_le_right _ _, ?_, by simp [formatSize, hB0]⟩
  by_cases hi : formatSizeIndex B = 0
  · have hsc : formatSizeScaled B = B := by simp [formatSizeScaled, hi]
    rw [hsc, hi]
    simp
  · set i := formatSizeIndex B with hidef
    have hsc : formatSizeScaled B = (20 * B + 1024 ^ i) / (2 * 1024 ^ i) := by
      simp [formatSizeScaled, ← hidef, hi]
    set n := formatSizeScaled B with hndef
    set c := 1024 ^ i with hcdef
    have hcpos : 0 < c := Nat.pos_pow_of_pos i (by norm_num)
    have hdm := Nat.div_add_mod (20 * B + c) (2 * c)
    have hmod : (20 * B + c) % (2 * c) < 2 * c :=
      Nat.mod_lt _ (by omega)
    have h1 : 2 * c * n ≤ 20 * B + c := by
      rw [hsc]; omega
    have h2 : 20 * B + c < 2 * c * n + 2 * c := by
      rw [hsc]; omega
    have hq1 : 2 * (c : ℚ) * n ≤ 20 * B + c := by exact_mod_cast h1
    have hq2 : (20 * (B : ℚ) + c) < 2 * c * n + 2 * c := by exact_mod_cast h2
    have hcq : (0 : ℚ) < c := by exact_mod_cast hcpos
    have hcast : ((1024 : ℚ)) ^ i = (c : ℚ) := by
      rw [hcdef]; push_cast; ring
    rw [if_neg hi, hcast, abs_le]
    constructor
    · linarith
    · linarith

/-- Witness for C9 at the concrete byte count 1536 (1.5KB). -/
theorem C9_formatSize_spec_witness :
    1 ≤ 1536 ∧
    (formatSizeIndex 1536 = min (Nat.log 1024 1536) 4 ∧
      formatSizeIndex 1536 ≤ 4 ∧
      |(formatSizeScaled 1536 : ℚ) /
          (if formatSizeIndex 1536 = 0 then 1 else 10) *
          1024 ^ formatSizeIndex 1536 - 1536| ≤
        (1024 ^ formatSizeIndex 1536 : ℚ) / 20 ∧
      formatSize (some 1536) =
        formatSizeNumString 1536 ++
          ["Bytes", "KB", "MB", "GB", "TB"].getD (formatSizeIndex 1536) "") :=
  ⟨by norm_num, C9_formatSize_spec.1 1536 (by norm_num)⟩

/-- Witness for C10 at a concrete input: a fractional size limit and a
large pdf file. -/
theorem C10_malformed_limit_witness :
    ({ initWidget with maxSize := some "1.5mb", types := some ["pdf"] } :
        Widget).maxSize = some "1.5mb" ∧
    sizeREexec "1.5mb" = none ∧
    (∀ ts, ({ initWidget with maxSize := some "1.5mb", types := some ["pdf"] } :
        Widget).types = some ts →
      ts.contains (extAfterLastDot "big.pdf") = true) ∧
    ((onInputValueChange
        { initWidget with maxSize := some "1.5mb", types := some ["pdf"] }
        [⟨"big.pdf", 999999999999⟩]).uploadStarted = some ⟨"big.pdf", 999999999999⟩ ∧
      (onInputValueChange
        { initWidget with maxSize := some "1.5mb", types := some ["pdf"] }
        [⟨"big.pdf", 999999999999⟩]).widget.error = "") :=
  ⟨rfl, rfl, by intro ts h; cases h; decide,
    C10_malformed_limit.2.2.2
      { initWidget with maxSize := some "1.5mb", types := some ["pdf"] }
      "1.5mb" ⟨"big.pdf", 999999999999⟩ [] rfl rfl
      (by intro ts h; cases h; decide)⟩

end FileUpload
